import Mathlib

/-!
A shallow embedding of src/projects/github_repos/el-el-san_work/src/hello.py.

The script defines a function main that prints the constant greeting
inside a try/except Exception handler, and calls main only under the
guard comparing the module name with the main-module name.

The one effectful primitive the script uses is print. A run is therefore
parameterised by a write oracle w : Nat -> WriteResult giving, for the
n-th print call of the execution, whether the underlying standard-output
write succeeds or raises a Python exception. Exceptions carry their class
information: the except Exception clause catches subclasses of Exception
but not exceptions deriving only from BaseException, such as
KeyboardInterrupt or SystemExit.
-/

/-- Class of a raised Python exception: a subclass of Exception, or an
exception deriving from BaseException but not from Exception. -/
inductive ExcClass where
  | exception
  | baseOnly
deriving DecidableEq

/-- A raised Python exception: its class and its str description, the
text interpolated by the f-string in the handler. -/
structure PyExc where
  cls : ExcClass
  msg : String
deriving DecidableEq

/-- Outcome of one underlying standard-output write attempt. -/
inductive WriteResult where
  | ok
  | raise (e : PyExc)
deriving DecidableEq

/-- An observable side effect of the process. Constructors other than
writeStdout record the kinds of effects a script could in principle
perform (standard error, files, network, environment); the frame
theorems show this script never emits them. -/
inductive Effect where
  | writeStdout (s : String)
  | writeStderr (s : String)
  | fileAccess (path : String)
  | netAccess (addr : String)
  | envAccess (nm : String)
deriving DecidableEq

/-- Whether an effect is a write to standard output. -/
def Effect.isStdoutWrite : Effect → Bool
  | .writeStdout _ => true
  | _ => false

/-- How a call of the entry routine terminates: a normal return, or an
exception propagating out of it uncaught. -/
inductive Outcome where
  | normal
  | uncaught (e : PyExc)
deriving DecidableEq

/-- Result of running the entry routine: the effects it performed, in
order, and how it terminated. -/
structure MainResult where
  trace : List Effect
  outcome : Outcome
deriving DecidableEq

/-- The constant greeting string literal of hello.py. -/
def greeting : String := "Hello, World!"

/-- The diagnostic text built by the f-string in the except branch of
hello.py, for a caught exception e. -/
def diagnostic (e : PyExc) : String :=
  "An unexpected error occurred while printing: " ++ e.msg

namespace hello

/-- The function main of hello.py. It calls print on the greeting inside
a try block; print appends a newline and writes to standard output. If
that write raises an exception of class Exception, the except branch
calls print on the diagnostic text, again on standard output; if the
recovery write succeeds main returns normally, and if it raises, that
exception propagates out of main (the recovery print is not guarded).
An exception deriving only from BaseException is not matched by the
except Exception clause and propagates at once. -/
def main (w : Nat → WriteResult) : MainResult :=
  match w 0 with
  | .ok => { trace := [.writeStdout (greeting ++ "\n")], outcome := .normal }
  | .raise e =>
    match e.cls with
    | .baseOnly => { trace := [], outcome := .uncaught e }
    | .exception =>
      match w 1 with
      | .ok => { trace := [.writeStdout (diagnostic e ++ "\n")], outcome := .normal }
      | .raise e2 => { trace := [], outcome := .uncaught e2 }

end hello

/-- The text accumulated on standard output by a trace of effects. -/
def stdoutOf : List Effect → String
  | [] => ""
  | .writeStdout s :: es => s ++ stdoutOf es
  | _ :: es => stdoutOf es

/-- The text accumulated on standard error by a trace of effects. -/
def stderrOf : List Effect → String
  | [] => ""
  | .writeStderr s :: es => s ++ stderrOf es
  | _ :: es => stderrOf es

/-- The effects performed by the script itself: main runs only when the
module is executed directly; on import the guard skips it. -/
def scriptTrace (isMain : Bool) (w : Nat → WriteResult) : List Effect :=
  if isMain then (hello.main w).trace else []

/-- The text the interpreter itself writes to standard error when an
exception escapes the program uncaught. -/
def interpTraceback (e : PyExc) : String :=
  "Traceback (most recent call last):\n" ++ e.msg ++ "\n"

/-- Observable result of one process execution. -/
structure ProcResult where
  stdout : String
  stderr : String
  exitCode : Nat
deriving DecidableEq

/-- One execution of hello.py. isMain tells whether the module is run
directly (the guard holds) or imported; args is the argument vector,
which the script never reads; w is the write oracle. A normal return
gives exit status zero; an uncaught exception makes the interpreter
print a traceback on standard error and exit with a non-zero status. -/
def runScript (isMain : Bool) (args : List String) (w : Nat → WriteResult) : ProcResult :=
  if isMain then
    match (hello.main w).outcome with
    | .normal =>
      { stdout := stdoutOf (hello.main w).trace
        stderr := stderrOf (hello.main w).trace
        exitCode := 0 }
    | .uncaught e =>
      { stdout := stdoutOf (hello.main w).trace
        stderr := stderrOf (hello.main w).trace ++ interpTraceback e
        exitCode := 1 }
  else { stdout := "", stderr := "", exitCode := 0 }

/-- Oracle for a normal platform: every write succeeds. -/
def wOk : Nat → WriteResult := fun _ => .ok

/-- Oracle where every write raises an exception deriving only from
BaseException, as a delivered KeyboardInterrupt does. -/
def wBase : Nat → WriteResult :=
  fun _ => .raise { cls := .baseOnly, msg := "KeyboardInterrupt" }

/-- Oracle where every write raises an Exception-class failure, as on a
closed standard-output stream. -/
def wExcFail : Nat → WriteResult :=
  fun _ => .raise { cls := .exception, msg := "stream closed" }

/-- Oracle where the first write raises an Exception-class failure and
every later write succeeds. -/
def wExcThenOk : Nat → WriteResult :=
  fun n => if n = 0 then .raise { cls := .exception, msg := "boom" } else .ok

/-- Helper: when the first write succeeds, main returns normally with the
single greeting write. -/
theorem main_ok (w : Nat → WriteResult) (h : w 0 = .ok) :
    hello.main w = { trace := [.writeStdout (greeting ++ "\n")], outcome := .normal } := by
  unfold hello.main
  rw [h]

/-- Helper: when the first write raises a BaseException-only exception,
main propagates it with an empty trace. -/
theorem main_baseOnly (w : Nat → WriteResult) (m : String)
    (h : w 0 = .raise { cls := .baseOnly, msg := m }) :
    hello.main w = { trace := [], outcome := .uncaught { cls := .baseOnly, msg := m } } := by
  unfold hello.main
  rw [h]

/-- Helper: when the first write raises an Exception-class exception and
the recovery write succeeds, main returns normally after writing the
diagnostic. -/
theorem main_exc_recovered (w : Nat → WriteResult) (m : String)
    (h0 : w 0 = .raise { cls := .exception, msg := m }) (h1 : w 1 = .ok) :
    hello.main w =
      { trace := [.writeStdout (diagnostic { cls := .exception, msg := m } ++ "\n")]
        outcome := .normal } := by
  unfold hello.main
  rw [h0]
  simp only [h1]

/-- Helper: when the first write raises an Exception-class exception and
the recovery write raises as well, the second exception propagates with
an empty trace. -/
theorem main_exc_unrecovered (w : Nat → WriteResult) (m : String) (e2 : PyExc)
    (h0 : w 0 = .raise { cls := .exception, msg := m }) (h1 : w 1 = .raise e2) :
    hello.main w = { trace := [], outcome := .uncaught e2 } := by
  unfold hello.main
  rw [h0]
  simp only [h1]

/-- Counterexample for claim C1 read unconditionally over all no-argument
direct invocations: at the oracle where the greeting write raises a
KeyboardInterrupt, such an invocation leaves standard output empty (not
the greeting line) and exits with a non-zero status. -/
theorem c1_counterexample :
    (runScript true [] wBase).stdout = "" ∧
    (runScript true [] wBase).exitCode ≠ 0 := by
  refine ⟨rfl, ?_⟩
  decide

/-- Claim C1 as amended: when the program is invoked directly with no
command-line arguments and the underlying standard-output write
succeeds, standard output is exactly the greeting followed by one
newline and the exit status is zero. -/
theorem c1_no_args_hello_world (w : Nat → WriteResult) (h : w 0 = .ok) :
    runScript true [] w = { stdout := "Hello, World!\n", stderr := "", exitCode := 0 } := by
  unfold runScript
  rw [main_ok w h]
  decide

/-- Witness for C1 at the all-writes-succeed oracle. -/
theorem c1_no_args_hello_world_witness :
    runScript true [] wOk = { stdout := "Hello, World!\n", stderr := "", exitCode := 0 } :=
  c1_no_args_hello_world wOk rfl

/-- Claim C2: the argument vector has no influence on the observable
behaviour: for any two invocations differing only in their command-line
arguments, the whole process result (standard output, standard error and
exit status) is identical. -/
theorem c2_args_noninterference (isMain : Bool) (args1 args2 : List String)
    (w : Nat → WriteResult) :
    runScript isMain args1 w = runScript isMain args2 w := rfl

/-- Counterexample for claim C3: at the oracle where both the greeting
write and the recovery write raise an Exception-class failure, the
greeting write raises a failure yet the program prints no diagnostic
(standard output stays empty) and does not terminate normally (the exit
status is non-zero), contradicting the claim as stated. -/
theorem c3_counterexample :
    wExcFail 0 = .raise { cls := .exception, msg := "stream closed" } ∧
    (runScript true [] wExcFail).stdout = "" ∧
    (runScript true [] wExcFail).exitCode ≠ 0 := by
  refine ⟨rfl, rfl, ?_⟩
  decide

/-- Claim C3 as amended: if the write of the greeting raises a failure
of class Exception and the recovery print of the diagnostic succeeds,
then the program prints the message that the diagnostic text prescribes,
followed by a newline, on standard output and terminates normally with
exit status zero. -/
theorem c3_diagnostic_on_failure (w : Nat → WriteResult) (m : String)
    (h0 : w 0 = .raise { cls := .exception, msg := m }) (h1 : w 1 = .ok) :
    runScript true [] w =
      { stdout := diagnostic { cls := .exception, msg := m } ++ "\n"
        stderr := ""
        exitCode := 0 } := by
  unfold runScript
  rw [main_exc_recovered w m h0 h1]
  simp [stdoutOf, stderrOf]

/-- Witness for the amended C3 at the oracle whose first write raises an
Exception-class failure and whose later writes succeed. -/
theorem c3_diagnostic_on_failure_witness :
    runScript true [] wExcThenOk =
      { stdout := diagnostic { cls := .exception, msg := "boom" } ++ "\n"
        stderr := ""
        exitCode := 0 } :=
  c3_diagnostic_on_failure wExcThenOk "boom" rfl rfl

/-- Claim C4: a non-zero exit status occurs only when the underlying
standard-output write primitive fails, and whenever the write succeeds
the exit status is zero. -/
theorem c4_exit_status (args : List String) (w : Nat → WriteResult) :
    ((runScript true args w).exitCode ≠ 0 → w 0 ≠ .ok) ∧
    (w 0 = .ok → (runScript true args w).exitCode = 0) := by
  constructor
  · intro hne hok
    apply hne
    unfold runScript
    rw [main_ok w hok]
    rfl
  · intro hok
    unfold runScript
    rw [main_ok w hok]
    rfl

/-- Witness for C4 at the all-writes-succeed oracle. -/
theorem c4_exit_status_witness : (runScript true [] wOk).exitCode = 0 :=
  (c4_exit_status [] wOk).2 rfl

/-- Claim C5: when the module is imported rather than run directly, the
entry routine does not run: the script performs no effects at all, and
in particular standard output and standard error are both empty. -/
theorem c5_import_silent (args : List String) (w : Nat → WriteResult) :
    scriptTrace false w = [] ∧
    runScript false args w = { stdout := "", stderr := "", exitCode := 0 } :=
  ⟨rfl, rfl⟩

/-- Claim C6: under normal operation, that is when the standard-output
write succeeds, the program writes nothing to standard error. -/
theorem c6_stderr_empty (args : List String) (w : Nat → WriteResult) (h : w 0 = .ok) :
    (runScript true args w).stderr = "" := by
  unfold runScript
  rw [main_ok w h]
  rfl

/-- Witness for C6 at the all-writes-succeed oracle. -/
theorem c6_stderr_empty_witness : (runScript true [] wOk).stderr = "" :=
  c6_stderr_empty [] wOk rfl

/-- Helper: every effect main ever emits is a write to standard
output. -/
theorem main_trace_only_stdout (w : Nat → WriteResult) :
    ∀ ef ∈ (hello.main w).trace, ef.isStdoutWrite = true := by
  intro ef hef
  unfold hello.main at hef
  cases hw : w 0 with
  | ok =>
    rw [hw] at hef
    simp only [List.mem_singleton] at hef
    subst hef
    rfl
  | raise e =>
    rw [hw] at hef
    obtain ⟨cls, m⟩ := e
    cases cls with
    | baseOnly => simp at hef
    | exception =>
      cases hw1 : w 1 with
      | ok =>
        rw [hw1] at hef
        simp only [List.mem_singleton] at hef
        subst hef
        rfl
      | raise e2 =>
        rw [hw1] at hef
        simp at hef

/-- Claim C7: in every execution, whether run directly or imported and
whatever the writes do, every effect the script performs is a write to
standard output (no standard-error write, file access, network access or
environment access appears in the trace); and under direct invocation
with a succeeding write the trace is exactly one standard-output
write of the greeting line. -/
theorem c7_only_stdout_effects (isMain : Bool) (w : Nat → WriteResult) :
    (∀ ef ∈ scriptTrace isMain w, ef.isStdoutWrite = true) ∧
    (isMain = true → w 0 = .ok →
      scriptTrace isMain w = [.writeStdout (greeting ++ "\n")]) := by
  constructor
  · intro ef hef
    cases isMain with
    | false => simp [scriptTrace] at hef
    | true =>
      have := main_trace_only_stdout w
      unfold scriptTrace at hef
      simp only [if_pos] at hef
      exact this ef hef
  · intro hm hok
    subst hm
    unfold scriptTrace
    rw [main_ok w hok]
    rfl

/-- Witness for C7: direct invocation with the all-writes-succeed
oracle performs exactly the one greeting write. -/
theorem c7_only_stdout_effects_witness :
    scriptTrace true wOk = [.writeStdout (greeting ++ "\n")] :=
  (c7_only_stdout_effects true wOk).2 rfl rfl

/-- Claim C8: determinism as a two-run property: any two normal
executions (direct invocations whose standard-output write succeeds),
even with different argument vectors and different oracles elsewhere,
produce the identical process result: same standard output, same
standard error and same exit status. -/
theorem c8_deterministic (args1 args2 : List String) (w1 w2 : Nat → WriteResult)
    (h1 : w1 0 = .ok) (h2 : w2 0 = .ok) :
    runScript true args1 w1 = runScript true args2 w2 := by
  unfold runScript
  rw [main_ok w1 h1, main_ok w2 h2]

/-- Witness for C8: two normal runs with different argument vectors
agree. -/
theorem c8_deterministic_witness :
    runScript true [] wOk = runScript true ["extra"] wOk :=
  c8_deterministic [] ["extra"] wOk wOk rfl rfl

/-- Claim C9: the except Exception clause is not a catch-all: an
exception deriving from BaseException but not Exception raised by the
greeting write is not caught, propagates uncaught out of main, and no
diagnostic is printed (the trace stays empty). -/
theorem c9_base_exception_escapes (w : Nat → WriteResult) (m : String)
    (h : w 0 = .raise { cls := .baseOnly, msg := m }) :
    (hello.main w).outcome = .uncaught { cls := .baseOnly, msg := m } ∧
    (hello.main w).trace = [] := by
  rw [main_baseOnly w m h]
  exact ⟨rfl, rfl⟩

/-- Witness for C9 at the KeyboardInterrupt oracle. -/
theorem c9_base_exception_escapes_witness :
    (hello.main wBase).outcome = .uncaught { cls := .baseOnly, msg := "KeyboardInterrupt" } ∧
    (hello.main wBase).trace = [] :=
  c9_base_exception_escapes wBase "KeyboardInterrupt" rfl

/-- Claim C10: the recovery print of the diagnostic targets standard
output, the same stream whose failure triggered the handler: when it
succeeds the diagnostic appears as a standard-output write; and the
recovery print is unguarded: when it raises, that exception propagates
uncaught out of main. -/
theorem c10_recovery_print_unguarded (w : Nat → WriteResult) (m : String)
    (h0 : w 0 = .raise { cls := .exception, msg := m }) :
    (w 1 = .ok →
      (hello.main w).trace =
        [.writeStdout (diagnostic { cls := .exception, msg := m } ++ "\n")]) ∧
    (∀ e2, w 1 = .raise e2 → (hello.main w).outcome = .uncaught e2) := by
  constructor
  · intro h1
    rw [main_exc_recovered w m h0 h1]
  · intro e2 h1
    rw [main_exc_unrecovered w m e2 h0 h1]

/-- Witness for C10: with both writes raising on a closed stream, the
exception of the recovery print propagates out of main. -/
theorem c10_recovery_print_unguarded_witness :
    (hello.main wExcFail).outcome = .uncaught { cls := .exception, msg := "stream closed" } :=
  (c10_recovery_print_unguarded wExcFail "stream closed" rfl).2
    { cls := .exception, msg := "stream closed" } rfl
